import Mathlib

/-!
Verification of the kafkit schema-registry caching layer and wire codec.

Shallow embedding of `kafkit/registry/sansio.py` and
`kafkit/registry/serializer.py`:

* A parsed Avro schema is identified with its canonical serialization
  (the string `json.dumps(fastavro.parse_schema(schema), sort_keys=True)`
  produced by `SchemaCache._serialize_schema` / `RegistryApi._prep_schema`).
  Two structurally identical schemas have equal canonical strings, so a
  schema is modelled as a `String`.  The dict access `schema["name"]`
  used for subject derivation is modelled by an explicit function
  `nameOf : String → Option String` passed to `register_schema`.
* Python dicts become functions to `Option`.
* `bytes` become `List Nat` (each element a byte value 0–255).
* Exceptions become `Except`; the HTTP transport (`RegistryApi._request`
  plus `decipher_response`) behind each high-level method becomes an
  explicit function argument returning `Except RegistryError _`, and
  each high-level method additionally returns the number of remote
  requests it issued, so that cache-hit behaviour is observable.
-/

/-- A decoded JSON value, as produced by `decode_body` from a response
body: `null` for an empty body, strings, integers, arrays and objects. -/
inductive JValue where
  | null
  | str (s : String)
  | num (n : Int)
  | arr (elems : List JValue)
  | obj (fields : List (String × JValue))

/-- Dictionary access `data[key]` on a decoded JSON object: `some` when
`data` is an object carrying `key`, `none` otherwise (Python raises
`KeyError` for a missing key and `TypeError` for a non-mapping). -/
def JValue.lookup (data : JValue) (key : String) : Option JValue :=
  match data with
  | .obj fields =>
    match fields.find? (fun p => p.1 = key) with
    | some p => some p.2
    | none => none
  | _ => none

/-- The exception taxonomy of `kafkit/registry/errors.py` plus the
`RuntimeError` raised by `register_schema`, and a marker for a Python
exception that would propagate uncaught through a high-level method. -/
inductive RegistryError where
  | brokenError (status_code : Nat) (error_code : Option JValue)
      (message : Option JValue)
  | badRequestError (status_code : Nat) (error_code : Option JValue)
      (message : Option JValue)
  | redirectionError (status_code : Nat)
  | httpError (status_code : Nat)
  | runtimeError
  | uncaught

/-- Python `TypeError` / `ValueError` raised by the cache classes. -/
inductive CacheError where
  | typeError
  | valueError
deriving DecidableEq

/-- Error extraction of `decipher_response` (sansio.py lines 64–69):
`error_code = data["error_code"]; message = data["message"]`, with
`TypeError` and `KeyError` caught, yielding `(None, None)`.  The
exception fires as soon as either access fails, so a present
`error_code` is discarded when `message` is missing. -/
def extract_error_fields (data : JValue) :
    Option JValue × Option JValue :=
  match data.lookup "error_code" with
  | none => (none, none)
  | some ec =>
    match data.lookup "message" with
    | none => (none, none)
    | some msg => (some ec, some msg)

/-- Embedding of `decipher_response` (sansio.py lines 53–82) applied to
the already-decoded body `data` (the result of `decode_body`, which
yields `JValue.null` for an empty body or absent content type). -/
def decipher_response (status_code : Nat) (data : JValue) :
    Except RegistryError JValue :=
  if status_code = 200 ∨ status_code = 201 ∨ status_code = 204 then
    .ok data
  else
    let ec_msg := extract_error_fields data
    if status_code ≥ 500 then
      .error (.brokenError status_code ec_msg.1 ec_msg.2)
    else if status_code ≥ 400 then
      .error (.badRequestError status_code ec_msg.1 ec_msg.2)
    else if status_code ≥ 300 then
      .error (.redirectionError status_code)
    else
      .error (.httpError status_code)

/-- Embedding of `pack_wire_format_prefix` (serializer.py lines
292–313): `struct.pack(">bI", 0, schema_id)`, the magic byte 0 followed
by the schema ID as a big-endian unsigned 32-bit integer.  `struct`
raises for `schema_id` outside `[0, 2^32)`; the definition is stated
for all `Nat` and the theorems carry the range hypothesis. -/
def pack_wire_format_prefix (schema_id : Nat) : List Nat :=
  [0, schema_id / 16777216 % 256, schema_id / 65536 % 256,
    schema_id / 256 % 256, schema_id % 256]

/-- Embedding of `unpack_wire_format_data` (serializer.py lines
316–347): inputs shorter than 5 bytes raise `RuntimeError` ("Data is
too short"); otherwise `struct.unpack(">bI", data[:5])` discards the
leading identity byte without validation and reads bytes 1–4 as a
big-endian unsigned 32-bit schema ID, returning it with `data[5:]`. -/
def unpack_wire_format_data (data : List Nat) :
    Except RegistryError (Nat × List Nat) :=
  match data with
  | _b0 :: b1 :: b2 :: b3 :: b4 :: rest =>
    .ok (b1 * 16777216 + b2 * 65536 + b3 * 256 + b4, rest)
  | _ => .error .runtimeError

/-- Whether an `Except` computation succeeded. -/
def exceptOk {ε α : Type} : Except ε α → Bool
  | .ok _ => true
  | .error _ => false

/-- Embedding of `SchemaCache` (sansio.py lines 614–683): the two dicts
`_id_to_schema : Dict[int, str]` and `_schema_to_id : Dict[str, int]`,
keyed respectively by schema ID and by the canonical serialization of
the schema. -/
structure SchemaCache where
  id_to_schema : Nat → Option String
  schema_to_id : String → Option Nat

/-- A freshly constructed `SchemaCache()`: both dicts empty. -/
def SchemaCache.empty : SchemaCache :=
  { id_to_schema := fun _ => none, schema_to_id := fun _ => none }

/-- Embedding of `SchemaCache.insert` (sansio.py lines 628–643): store
the (already canonical) schema under the ID in `_id_to_schema` and the
ID under the schema in `_schema_to_id`. -/
def SchemaCache.insert (c : SchemaCache) (schema : String)
    (schema_id : Nat) : SchemaCache :=
  { id_to_schema := fun i =>
      if i = schema_id then some schema else c.id_to_schema i,
    schema_to_id := fun s =>
      if s = schema then some schema_id else c.schema_to_id s }

/-- A `version` argument of the Python API, typed `Union[int, str]`.
`isinstance(version, int)` holds exactly for `Version.int`. -/
inductive Version where
  | int (v : Int)
  | str (s : String)

/-- The combined mutable state of a `RegistryApi` client: its
`SchemaCache` together with the `_subject_to_id : Dict[Tuple[str, int],
int]` dict of the `SubjectCache` that shares that same `SchemaCache`
(sansio.py lines 127–130 and 705–708). -/
structure RegistryState where
  schema_cache : SchemaCache
  subject_to_id : String × Int → Option Nat

/-- A freshly constructed client: both caches empty. -/
def RegistryState.empty : RegistryState :=
  { schema_cache := SchemaCache.empty, subject_to_id := fun _ => none }

/-- The composite returned by `SubjectCache.get` and
`RegistryApi.get_schema_by_subject`: the `{"subject", "version", "id",
"schema"}` dictionary.  `version` is kept as a `Version` because
`get_schema_by_subject` copies the server-reported version through
unchecked. -/
structure SchemaInfo where
  subject : String
  version : Version
  id : Nat
  schema : String

namespace SubjectCache

/-- Embedding of `SubjectCache.get` (sansio.py lines 772–824): raise
`ValueError` for a non-integer version, then resolve the schema ID via
`get_id` (whose `KeyError` is re-raised as `ValueError`) and the schema
via the schema cache (`KeyError` caught, re-raised as `ValueError`),
and return the composite. -/
def get (st : RegistryState) (subject : String) (version : Version) :
    Except CacheError SchemaInfo :=
  match version with
  | .str _ => .error .valueError
  | .int v =>
    match st.subject_to_id (subject, v) with
    | none => .error .valueError
    | some schema_id =>
      match st.schema_cache.id_to_schema schema_id with
      | none => .error .valueError
      | some schema =>
        .ok { subject := subject, version := .int v, id := schema_id,
              schema := schema }

/-- Embedding of `SubjectCache.insert` (sansio.py lines 826–897).
Raise `TypeError` for a non-integer version.  If `schema_id` is given:
when the ID is not yet in the schema cache a `schema` must also be
given (else `ValueError`) and is inserted there first; then map
`(subject, version)` to `schema_id`.  If only `schema` is given: a
schema absent from the schema cache raises `ValueError` (its
`schema_id` is necessarily `None` in this branch); otherwise map
`(subject, version)` to the cached ID.  With neither, `ValueError`. -/
def insert (st : RegistryState) (subject : String) (version : Version)
    (schema_id : Option Nat) (schema : Option String) :
    Except CacheError RegistryState :=
  match version with
  | .str _ => .error .typeError
  | .int v =>
    match schema_id with
    | some sid =>
      match st.schema_cache.id_to_schema sid with
      | none =>
        match schema with
        | none => .error .valueError
        | some sch =>
          .ok { schema_cache := st.schema_cache.insert sch sid,
                subject_to_id := fun p =>
                  if p = (subject, v) then some sid
                  else st.subject_to_id p }
      | some _ =>
        .ok { st with subject_to_id := fun p =>
                if p = (subject, v) then some sid
                else st.subject_to_id p }
    | none =>
      match schema with
      | some sch =>
        match st.schema_cache.schema_to_id sch with
        | none => .error .valueError
        | some cached_id =>
          .ok { st with subject_to_id := fun p =>
                  if p = (subject, v) then some cached_id
                  else st.subject_to_id p }
      | none => .error .valueError

end SubjectCache

/-- The decoded server response to `GET
/subjects/{subject}/versions/{version}`: the fields `result["subject"]`,
`result["version"]`, `result["id"]` and the parsed, canonicalized
`result["schema"]`. -/
structure SubjectVersionResponse where
  subject : String
  version : Version
  id : Nat
  schema : String

namespace RegistryApi

/-- Embedding of `RegistryApi.register_schema` (sansio.py lines
404–460), parametrised by `nameOf` (the dict access `schema["name"]` on
the parsed schema, `none` when it raises `KeyError`/`TypeError`) and by
the remote transport `post` (the `POST /subjects/{subject}/versions`
round-trip through `decipher_response`, yielding `result["id"]`).
The schema argument is its canonical form after `fastavro.parse_schema`.
Returns the result, the updated state, and the number of POST requests
issued.  Cache hit → return the cached ID with no request; otherwise
derive the subject (`RuntimeError` when underivable), POST, and on
success insert the schema and returned ID into the schema cache. -/
def register_schema (nameOf : String → Option String)
    (post : String → String → Except RegistryError Nat)
    (st : RegistryState) (schema : String) (subject : Option String) :
    Except RegistryError Nat × RegistryState × Nat :=
  match st.schema_cache.schema_to_id schema with
  | some schema_id => (.ok schema_id, st, 0)
  | none =>
    let subj : Option String :=
      match subject with
      | some s => some s
      | none => nameOf schema
    match subj with
    | none => (.error .runtimeError, st, 0)
    | some s =>
      match post s schema with
      | .error e => (.error e, st, 1)
      | .ok new_id =>
        (.ok new_id,
          { st with schema_cache := st.schema_cache.insert schema new_id },
          1)

/-- Embedding of `RegistryApi.get_schema_by_id` (sansio.py lines
462–503), parametrised by the remote transport `fetch` (the `GET
/schemas/ids/{id}` round-trip, yielding the parsed canonical
`result["schema"]`).  Cache hit → return the cached schema with no
request; otherwise fetch, insert into the schema cache under the
requested ID, and return.  The last component counts GET requests. -/
def get_schema_by_id (fetch : Nat → Except RegistryError String)
    (st : RegistryState) (schema_id : Nat) :
    Except RegistryError String × RegistryState × Nat :=
  match st.schema_cache.id_to_schema schema_id with
  | some schema => (.ok schema, st, 0)
  | none =>
    match fetch schema_id with
    | .error e => (.error e, st, 1)
    | .ok schema =>
      (.ok schema,
        { st with schema_cache := st.schema_cache.insert schema schema_id },
        1)

/-- Embedding of `RegistryApi.get_schema_by_subject` (sansio.py lines
505–579), parametrised by the remote transport `fetch` (the `GET
/subjects/{subject}/versions/{version}` round-trip).  Try
`SubjectCache.get` first, any `ValueError` falling through to the
remote fetch; on a successful fetch, attempt `SubjectCache.insert` with
the server-reported subject and version, catching only `TypeError`
(non-integer version) — an uncaught `ValueError` would propagate — and
return the composite built from the server response either way.  The
last component counts GET requests. -/
def get_schema_by_subject
    (fetch : String → Version → Except RegistryError SubjectVersionResponse)
    (st : RegistryState) (subject : String) (version : Version) :
    Except RegistryError SchemaInfo × RegistryState × Nat :=
  match SubjectCache.get st subject version with
  | .ok info => (.ok info, st, 0)
  | .error _ =>
    match fetch subject version with
    | .error e => (.error e, st, 1)
    | .ok r =>
      match SubjectCache.insert st r.subject r.version (some r.id)
          (some r.schema) with
      | .ok st1 =>
        (.ok { subject := r.subject, version := r.version, id := r.id,
               schema := r.schema }, st1, 1)
      | .error .typeError =>
        (.ok { subject := r.subject, version := r.version, id := r.id,
               schema := r.schema }, st, 1)
      | .error .valueError => (.error .uncaught, st, 1)

end RegistryApi

/-- Embedding of `_make_message` (serializer.py lines 194–204): the
wire-format prefix for the schema ID followed by the Avro encoding of
the data, with the external codec `fastavro.schemaless_writer` supplied
as `encode`. -/
def make_message (encode : String → JValue → List Nat)
    (schema_id : Nat) (schema : String) (data : JValue) : List Nat :=
  pack_wire_format_prefix schema_id ++ encode schema data

/-- Embedding of `PolySerializer.serialize` (serializer.py lines
145–191), parametrised like the registry methods it calls and by the
external Avro codec `encode`.  If `schema_id` is given the schema is
always obtained through `get_schema_by_id` and any supplied `schema`
argument is unused; otherwise a supplied `schema` is registered through
`register_schema` under `subject` to obtain the ID; with neither,
`RuntimeError`.  The successful result is the wire-format message. -/
def PolySerializer.serialize (encode : String → JValue → List Nat)
    (nameOf : String → Option String)
    (fetch : Nat → Except RegistryError String)
    (post : String → String → Except RegistryError Nat)
    (st : RegistryState) (data : JValue) (schema : Option String)
    (schema_id : Option Nat) (subject : Option String) :
    Except RegistryError (List Nat) × RegistryState :=
  match schema_id with
  | some sid =>
    match RegistryApi.get_schema_by_id fetch st sid with
    | (.error e, st1, _) => (.error e, st1)
    | (.ok sch, st1, _) => (.ok (make_message encode sid sch data), st1)
  | none =>
    match schema with
    | some sch =>
      match RegistryApi.register_schema nameOf post st sch subject with
      | (.error e, st1, _) => (.error e, st1)
      | (.ok sid, st1, _) => (.ok (make_message encode sid sch data), st1)
    | none => (.error .runtimeError, st)

/-- Run a sequence of `SchemaCache.insert` calls, in order, against a
cache. -/
def SchemaCache.insert_all (c : SchemaCache)
    (inserts : List (String × Nat)) : SchemaCache :=
  inserts.foldl (fun acc p => acc.insert p.1 p.2) c

/-- The two maps of a `SchemaCache` agree: every entry of either map
has the matching partner entry in the other. -/
def cacheAgrees (c : SchemaCache) : Prop :=
  ∀ (i : Nat) (s : String),
    c.id_to_schema i = some s ↔ c.schema_to_id s = some i

/-- An insert sequence is consistent when it never pairs one schema
with two different IDs nor one ID with two different schemas. -/
def consistentInserts (inserts : List (String × Nat)) : Prop :=
  ∀ p ∈ inserts, ∀ q ∈ inserts, (p.1 = q.1 ↔ p.2 = q.2)

/-- A cache-mutating operation of the client: `SchemaCache.insert` or
`SubjectCache.insert` (the only writes the `RegistryApi` high-level
methods ever perform on the two caches). -/
inductive CacheOp where
  | schemaInsert (schema : String) (schema_id : Nat)
  | subjectInsert (subject : String) (version : Version)
      (schema_id : Option Nat) (schema : Option String)

/-- Apply one operation to the client state; a `SubjectCache.insert`
that raises leaves the state unchanged. -/
def apply_op (st : RegistryState) (op : CacheOp) : RegistryState :=
  match op with
  | .schemaInsert s i =>
    { st with schema_cache := st.schema_cache.insert s i }
  | .subjectInsert subj v sid sch =>
    match SubjectCache.insert st subj v sid sch with
    | .ok st1 => st1
    | .error _ => st

/-- Run a sequence of cache operations against a fresh client. -/
def run_ops (ops : List CacheOp) : RegistryState :=
  ops.foldl apply_op RegistryState.empty

/-- Every ID stored in `_schema_to_id` has an entry in
`_id_to_schema`. -/
def schemaRangeClosed (c : SchemaCache) : Prop :=
  ∀ (s : String) (i : Nat),
    c.schema_to_id s = some i → (c.id_to_schema i).isSome

/-- Every `(subject, version)` entry of the subject cache maps to a
schema ID resolvable in the associated schema cache. -/
def subjectEntriesResolvable (st : RegistryState) : Prop :=
  ∀ (subj : String) (v : Int) (i : Nat),
    st.subject_to_id (subj, v) = some i →
      (st.schema_cache.id_to_schema i).isSome

/-- C2: unpacking the concatenation of the packed 5-byte prefix for a
schema ID in `[0, 2^32)` with any payload returns exactly that ID and
that payload. -/
theorem wire_round_trip (schema_id : Nat) (payload : List Nat)
    (h : schema_id < 4294967296) :
    unpack_wire_format_data ( pack_wire_format_prefix schema_id ++ payload)
      = .ok (schema_id, payload) := by
  simp only [ pack_wire_format_prefix, List.cons_append, List.nil_append,
    unpack_wire_format_data]
  congr 1
  congr 1
  omega

/-- Witness for C2 at schema ID 7 and payload `[9, 10]`. -/
theorem wire_round_trip_witness :
    7 < 4294967296 ∧
      unpack_wire_format_data ( pack_wire_format_prefix 7 ++ [9, 10])
        = .ok (7, [9, 10]) :=
  ⟨by decide, wire_round_trip 7 [9, 10] (by decide)⟩

/-- C4: unpacking fails with the too-short (`MalformedMessage`-kind)
error exactly when the input is shorter than 5 bytes, succeeds for
every input of length at least 5, and never depends on the value of
the leading identity byte. -/
theorem unpack_length_rule (data : List Nat) :
    (data.length < 5 →
      unpack_wire_format_data data = .error .runtimeError) ∧
    (5 ≤ data.length → exceptOk (unpack_wire_format_data data) = true) ∧
    (∀ (b b2 : Nat) (rest : List Nat),
      unpack_wire_format_data (b :: rest)
        = unpack_wire_format_data (b2 :: rest)) := by
  refine ⟨?_, ?_, ?_⟩
  · intro h
    match data, h with
    | [], _ => rfl
    | [_], _ => rfl
    | [_, _], _ => rfl
    | [_, _, _], _ => rfl
    | [_, _, _, _], _ => rfl
  · intro h
    match data, h with
    | _ :: _ :: _ :: _ :: _ :: _, _ => rfl
  · intro b b2 rest
    match rest with
    | [] => rfl
    | [_] => rfl
    | [_, _] => rfl
    | [_, _, _] => rfl
    | _ :: _ :: _ :: _ :: _ => rfl

/-- Witness for C4: the empty input and a two-byte input fail, while a
5-byte input with a nonzero leading byte succeeds. -/
theorem unpack_length_rule_witness :
    unpack_wire_format_data [] = .error .runtimeError ∧
      unpack_wire_format_data [3, 200] = .error .runtimeError ∧
      exceptOk (unpack_wire_format_data [255, 0, 0, 0, 1]) = true :=
  ⟨(unpack_length_rule []).1 (by decide),
    (unpack_length_rule [3, 200]).1 (by decide),
    (unpack_length_rule [255, 0, 0, 0, 1]).2.1 (by decide)⟩

/-- C3: `decipher_response` returns the decoded body for status 200,
201 and 204, fails `ServerError`-kind for every status ≥ 500,
`BadRequest`-kind for 400–499, `Redirection`-kind for 300–399, and a
generic `HttpError`-kind for every other status; the server/bad-request
failures carry the `error_code` and `message` extracted from an object
body carrying both keys, and `none`/`none` whenever extraction fails
(null body from an empty response, non-object body, or a missing key),
without raising a secondary error. -/
theorem decipher_response_classification (status : Nat) (data : JValue) :
    ((status = 200 ∨ status = 201 ∨ status = 204) →
      decipher_response status data = .ok data) ∧
    (500 ≤ status →
      decipher_response status data
        = .error (.brokenError status (extract_error_fields data).1
            (extract_error_fields data).2)) ∧
    (400 ≤ status → status < 500 →
      decipher_response status data
        = .error (.badRequestError status (extract_error_fields data).1
            (extract_error_fields data).2)) ∧
    (300 ≤ status → status < 400 →
      decipher_response status data
        = .error (.redirectionError status)) ∧
    (status < 300 → status ≠ 200 → status ≠ 201 → status ≠ 204 →
      decipher_response status data = .error (.httpError status)) ∧
    (∀ (ec msg : JValue), data.lookup "error_code" = some ec →
      data.lookup "message" = some msg →
      extract_error_fields data = (some ec, some msg)) ∧
    ((data.lookup "error_code" = none ∨ data.lookup "message" = none) →
      extract_error_fields data = (none, none)) := by
  refine ⟨?_, ?_, ?_, ?_, ?_, ?_, ?_⟩
  · intro h
    simp [decipher_response, h]
  · intro h
    have h1 : ¬(status = 200 ∨ status = 201 ∨ status = 204) := by omega
    simp only [decipher_response, if_neg h1]
    rw [if_pos (by omega)]
  · intro h h2
    have h1 : ¬(status = 200 ∨ status = 201 ∨ status = 204) := by omega
    simp only [decipher_response, if_neg h1]
    rw [if_neg (by omega), if_pos (by omega)]
  · intro h h2
    have h1 : ¬(status = 200 ∨ status = 201 ∨ status = 204) := by omega
    simp only [decipher_response, if_neg h1]
    rw [if_neg (by omega), if_neg (by omega), if_pos (by omega)]
  · intro h h2 h3 h4
    have h1 : ¬(status = 200 ∨ status = 201 ∨ status = 204) := by omega
    simp only [decipher_response, if_neg h1]
    rw [if_neg (by omega), if_neg (by omega), if_neg (by omega)]
  · intro ec msg hec hmsg
    simp [extract_error_fields, hec, hmsg]
  · intro h
    rcases h with h | h
    · simp [extract_error_fields, h]
    · cases hec : data.lookup "error_code" with
      | none => simp [extract_error_fields, hec]
      | some ec => simp [extract_error_fields, hec, h]

/-- Witness for C3 at status 503 with a full error envelope and at
status 404 with a null (empty) body. -/
theorem decipher_response_classification_witness :
    decipher_response 503
        (.obj [("error_code", .num 50001), ("message", .str "oops")])
      = .error (.brokenError 503
          (extract_error_fields
            (.obj [("error_code", .num 50001),
              ("message", .str "oops")])).1
          (extract_error_fields
            (.obj [("error_code", .num 50001),
              ("message", .str "oops")])).2) ∧
    decipher_response 404 .null
      = .error (.badRequestError 404 (extract_error_fields .null).1
          (extract_error_fields .null).2) :=
  ⟨(decipher_response_classification 503 _).2.1 (by decide),
    (decipher_response_classification 404 .null).2.2.1 (by decide)
      (by decide)⟩

/-- C1: after a successful `register_schema` call, a second call with a
structurally identical schema (equal canonical form) issues no further
POST request, returns the same schema ID, and leaves the state
untouched, whatever subject argument the second call passes. -/
theorem register_schema_at_most_once
    (nameOf : String → Option String)
    (post : String → String → Except RegistryError Nat)
    (st : RegistryState) (schema : String)
    (subject subject2 : Option String) (schema_id : Nat)
    (st1 : RegistryState) (n : Nat)
    (h : RegistryApi.register_schema nameOf post st schema subject
        = (.ok schema_id, st1, n)) :
    RegistryApi.register_schema nameOf post st1 schema subject2
      = (.ok schema_id, st1, 0) := by
  unfold RegistryApi.register_schema at h
  cases hc : st.schema_cache.schema_to_id schema with
  | some sid =>
    rw [hc] at h
    simp only [Prod.mk.injEq, Except.ok.injEq] at h
    obtain ⟨hid, hst, -⟩ := h
    subst hid hst
    unfold RegistryApi.register_schema
    rw [hc]
  | none =>
    rw [hc] at h
    dsimp only at h
    have key : ∀ (s : String),
        (match post s schema with
          | Except.error e => (Except.error e, st, 1)
          | Except.ok new_id =>
            (Except.ok new_id,
              { st with schema_cache :=
                  st.schema_cache.insert schema new_id }, 1))
          = ((Except.ok schema_id : Except RegistryError Nat), st1, n) →
        RegistryApi.register_schema nameOf post st1 schema subject2
          = (.ok schema_id, st1, 0) := by
      intro s hs
      cases hpost : post s schema with
      | error e => rw [hpost] at hs; simp at hs
      | ok new_id =>
        rw [hpost] at hs
        simp only [Prod.mk.injEq, Except.ok.injEq] at hs
        obtain ⟨hid, hst, -⟩ := hs
        subst hid hst
        simp [RegistryApi.register_schema, SchemaCache.insert]
    cases subject with
    | some s =>
      dsimp only at h
      exact key s h
    | none =>
      dsimp only at h
      cases hname : nameOf schema with
      | none => rw [hname] at h; simp at h
      | some s => rw [hname] at h; exact key s h

/-- Witness for C1: registering schema "A" against a transport that
assigns ID 7, then registering it again. -/
theorem register_schema_at_most_once_witness :
    RegistryApi.register_schema (fun _ => none) (fun _ _ => .ok 7)
        (RegistryApi.register_schema (fun _ => none) (fun _ _ => .ok 7)
          RegistryState.empty "A" (some "subj")).2.1 "A" none
      = (.ok 7,
          (RegistryApi.register_schema (fun _ => none) (fun _ _ => .ok 7)
            RegistryState.empty "A" (some "subj")).2.1, 0) :=
  register_schema_at_most_once (fun _ => none) (fun _ _ => .ok 7)
    RegistryState.empty "A" (some "subj") none 7 _ 1 rfl

/-- C10: whenever `register_schema` fails — no subject derivable, or
the POST round-trip fails — the returned state is exactly the input
state: both caches are untouched, because the cache insert happens only
after the remote registration has returned successfully. -/
theorem register_schema_error_atomic
    (nameOf : String → Option String)
    (post : String → String → Except RegistryError Nat)
    (st : RegistryState) (schema : String) (subject : Option String)
    (e : RegistryError) (st1 : RegistryState) (n : Nat)
    (h : RegistryApi.register_schema nameOf post st schema subject
        = (.error e, st1, n)) :
    st1 = st := by
  unfold RegistryApi.register_schema at h
  cases hc : st.schema_cache.schema_to_id schema with
  | some sid => rw [hc] at h; simp at h
  | none =>
    rw [hc] at h
    dsimp only at h
    have key : ∀ (s : String),
        (match post s schema with
          | Except.error e2 => (Except.error e2, st, 1)
          | Except.ok new_id =>
            (Except.ok new_id,
              { st with schema_cache :=
                  st.schema_cache.insert schema new_id }, 1))
          = ((Except.error e : Except RegistryError Nat), st1, n) →
        st1 = st := by
      intro s hs
      cases hpost : post s schema with
      | error e2 =>
        rw [hpost] at hs
        simp only [Prod.mk.injEq, Except.error.injEq] at hs
        exact hs.2.1.symm
      | ok new_id => rw [hpost] at hs; simp at hs
    cases subject with
    | some s =>
      dsimp only at h
      exact key s h
    | none =>
      dsimp only at h
      cases hname : nameOf schema with
      | none =>
        rw [hname] at h
        simp only [Prod.mk.injEq] at h
        exact h.2.1.symm
      | some s => rw [hname] at h; exact key s h

/-- Witness for C10: a POST that fails with a 500 classification leaves
the empty client state unchanged. -/
theorem register_schema_error_atomic_witness :
    (RegistryApi.register_schema (fun _ => some "n")
        (fun _ _ => .error (.brokenError 500 none none))
        RegistryState.empty "A" (some "s")).2.1
      = RegistryState.empty :=
  register_schema_error_atomic (fun _ => some "n")
    (fun _ _ => .error (.brokenError 500 none none))
    RegistryState.empty "A" (some "s") (.brokenError 500 none none)
    _ 1 rfl

/-- C5 counterexample: inserting schema "A" under ID 1 and then under
ID 2 leaves ID 1 in `_id_to_schema` pointing at "A" while
`_schema_to_id` maps "A" to 2, so the two maps do not agree. -/
theorem schema_cache_agreement_counterexample :
    ¬ cacheAgrees ((SchemaCache.empty.insert "A" 1).insert "A" 2) := by
  intro h
  have h1 := (h 1 "A").mp rfl
  simp [SchemaCache.insert, SchemaCache.empty] at h1

/-- C5 (amended): after any sequence of inserts that never pairs one
schema with two different IDs nor one ID with two different schemas,
the two maps of the schema cache agree. -/
theorem schema_cache_agreement_of_consistent
    (inserts : List (String × Nat)) (hcons : consistentInserts inserts) :
    cacheAgrees (SchemaCache.empty.insert_all inserts) := by
  have main : ∀ (l : List (String × Nat)) (c : SchemaCache),
      (∀ p ∈ l, p ∈ inserts) →
      cacheAgrees c →
      (∀ (i : Nat) (s : String),
        c.id_to_schema i = some s → (s, i) ∈ inserts) →
      cacheAgrees (c.insert_all l) := by
    intro l
    induction l with
    | nil =>
      intro c _ hA _
      simpa [SchemaCache.insert_all] using hA
    | cons p rest ih =>
      intro c hsub hA hE
      have hp : p ∈ inserts := hsub p (List.mem_cons_self p rest)
      have hA2 : cacheAgrees (c.insert p.1 p.2) := by
        intro i s
        constructor
        · intro hi
          simp only [SchemaCache.insert] at hi ⊢
          by_cases hip : i = p.2
          · subst hip
            rw [if_pos rfl] at hi
            injection hi with hs
            subst hs
            rw [if_pos rfl]
          · rw [if_neg hip] at hi
            by_cases hsp : s = p.1
            · exact absurd ((hcons (s, i) (hE i s hi) p hp).mp hsp) hip
            · rw [if_neg hsp]
              exact (hA i s).mp hi
        · intro hs
          simp only [SchemaCache.insert] at hs ⊢
          by_cases hsp : s = p.1
          · subst hsp
            rw [if_pos rfl] at hs
            injection hs with hi
            subst hi
            rw [if_pos rfl]
          · rw [if_neg hsp] at hs
            by_cases hip : i = p.2
            · have hin := hE i s ((hA i s).mpr hs)
              exact absurd ((hcons (s, i) hin p hp).mpr hip) hsp
            · rw [if_neg hip]
              exact (hA i s).mpr hs
      have hE2 : ∀ (i : Nat) (s : String),
          (c.insert p.1 p.2).id_to_schema i = some s → (s, i) ∈ inserts := by
        intro i s hi
        simp only [SchemaCache.insert] at hi
        by_cases hip : i = p.2
        · rw [if_pos hip] at hi
          injection hi with hs
          rw [← hs, hip, Prod.mk.eta]
          exact hp
        · rw [if_neg hip] at hi
          exact hE i s hi
      have step : c.insert_all (p :: rest)
          = (c.insert p.1 p.2).insert_all rest := by
        simp [SchemaCache.insert_all]
      rw [step]
      exact ih (c.insert p.1 p.2)
        (fun q hq => hsub q (List.mem_cons_of_mem p hq)) hA2 hE2
  apply main inserts SchemaCache.empty (fun p hp => hp)
  · intro i s
    simp [SchemaCache.empty]
  · intro i s hi
    simp [SchemaCache.empty] at hi

/-- Witness for C5 (amended) on the consistent sequence
`[("A", 1), ("B", 2)]`. -/
theorem schema_cache_agreement_of_consistent_witness :
    consistentInserts [("A", 1), ("B", 2)] ∧
      cacheAgrees (SchemaCache.empty.insert_all [("A", 1), ("B", 2)]) :=
  ⟨by unfold consistentInserts; decide,
    schema_cache_agreement_of_consistent _
      (by unfold consistentInserts; decide)⟩

/-- C7 counterexample: with schema "A" cached under ID 1,
`SubjectCache.insert` accepts the negative version `-1` — only
non-integer versions are rejected, not non-negative ones. -/
theorem subject_cache_version_counterexample :
    exceptOk (SubjectCache.insert
        { schema_cache := SchemaCache.empty.insert "A" 1,
          subject_to_id := fun _ => none }
        "s" (.int (-1)) (some 1) none) = true := by
  rfl

/-- C7 (amended): `SubjectCache.insert` fails with the `TypeError`-kind
(`InvalidVersion`) error for every string version argument such as
"latest", and never raises that error for an integer version — negative
integers included; `SubjectCache.get` fails with the `ValueError`-kind
error for every string version.  Both failing calls return only an
error, leaving the cache untouched. -/
theorem subject_cache_version_validation (st : RegistryState)
    (subject : String) (schema_id : Option Nat)
    (schema : Option String) :
    (∀ (s : String), SubjectCache.insert st subject (.str s)
        schema_id schema = .error .typeError) ∧
    (∀ (s : String), SubjectCache.get st subject (.str s)
        = .error .valueError) ∧
    (∀ (v : Int), SubjectCache.insert st subject (.int v)
        schema_id schema ≠ .error .typeError) := by
  refine ⟨fun _ => rfl, fun _ => rfl, ?_⟩
  intro v h
  dsimp only [SubjectCache.insert] at h
  cases schema_id with
  | some sid =>
    dsimp only at h
    cases hid : st.schema_cache.id_to_schema sid with
    | none =>
      rw [hid] at h
      cases schema with
      | none => simp at h
      | some sch => simp at h
    | some old =>
      rw [hid] at h
      simp at h
  | none =>
    dsimp only at h
    cases schema with
    | some sch =>
      dsimp only at h
      cases hsch : st.schema_cache.schema_to_id sch with
      | none => rw [hsch] at h; simp at h
      | some cached => rw [hsch] at h; simp at h
    | none => simp at h

/-- Witness for C7 (amended) at the version "latest" against a fresh
client. -/
theorem subject_cache_version_validation_witness :
    SubjectCache.insert RegistryState.empty "s" (.str "latest")
        (some 1) none = .error .typeError ∧
      SubjectCache.get RegistryState.empty "s" (.str "latest")
        = .error .valueError :=
  ⟨(subject_cache_version_validation RegistryState.empty "s"
      (some 1) none).1 "latest",
    (subject_cache_version_validation RegistryState.empty "s"
      (some 1) none).2.1 "latest"⟩

/-- Helper: `SchemaCache.insert` preserves range closure. -/
theorem schemaRangeClosed_insert (c : SchemaCache) (sch : String)
    (i : Nat) (h : schemaRangeClosed c) :
    schemaRangeClosed (c.insert sch i) := by
  intro s2 i2 hs
  simp only [SchemaCache.insert] at hs ⊢
  by_cases hii : i2 = i
  · simp [hii]
  · rw [if_neg hii]
    by_cases hsp : s2 = sch
    · rw [if_pos hsp] at hs
      injection hs with he
      exact absurd he.symm hii
    · rw [if_neg hsp] at hs
      exact h s2 i2 hs

/-- Helper: `SchemaCache.insert` never removes an `_id_to_schema`
entry. -/
theorem isSome_id_to_schema_insert (c : SchemaCache) (sch : String)
    (i j : Nat) (h : (c.id_to_schema j).isSome) :
    ((c.insert sch i).id_to_schema j).isSome := by
  simp only [SchemaCache.insert]
  by_cases hj : j = i
  · simp [hj]
  · rw [if_neg hj]
    exact h

/-- Helper: one cache operation preserves range closure of the schema
cache and resolvability of every subject-cache entry. -/
theorem inv_apply_op (st : RegistryState) (op : CacheOp)
    (h1 : schemaRangeClosed st.schema_cache)
    (h2 : subjectEntriesResolvable st) :
    schemaRangeClosed (apply_op st op).schema_cache ∧
      subjectEntriesResolvable (apply_op st op) := by
  cases op with
  | schemaInsert s i =>
    dsimp only [apply_op]
    refine ⟨schemaRangeClosed_insert _ _ _ h1, ?_⟩
    intro subj v i2 hmap
    exact isSome_id_to_schema_insert _ _ _ _ (h2 subj v i2 hmap)
  | subjectInsert subj ver sid sch =>
    dsimp only [apply_op]
    cases hins : SubjectCache.insert st subj ver sid sch with
    | error e => exact ⟨h1, h2⟩
    | ok st1 =>
      cases ver with
      | str s => simp [SubjectCache.insert] at hins
      | int v =>
        dsimp only [SubjectCache.insert] at hins
        cases sid with
        | some sid0 =>
          dsimp only at hins
          cases hid : st.schema_cache.id_to_schema sid0 with
          | none =>
            rw [hid] at hins
            cases sch with
            | none => simp at hins
            | some sch0 =>
              simp only [Except.ok.injEq] at hins
              subst hins
              refine ⟨schemaRangeClosed_insert _ _ _ h1, ?_⟩
              intro s2 v2 i2 hmap
              dsimp only at hmap ⊢
              by_cases hkey : (s2, v2) = (subj, v)
              · rw [if_pos hkey] at hmap
                injection hmap with hi2
                simp [SchemaCache.insert, ← hi2]
              · rw [if_neg hkey] at hmap
                exact isSome_id_to_schema_insert _ _ _ _
                  (h2 s2 v2 i2 hmap)
          | some old =>
            rw [hid] at hins
            simp only [Except.ok.injEq] at hins
            subst hins
            refine ⟨h1, ?_⟩
            intro s2 v2 i2 hmap
            dsimp only at hmap ⊢
            by_cases hkey : (s2, v2) = (subj, v)
            · rw [if_pos hkey] at hmap
              injection hmap with hi2
              rw [← hi2, hid]
              rfl
            · rw [if_neg hkey] at hmap
              exact h2 s2 v2 i2 hmap
        | none =>
          dsimp only at hins
          cases sch with
          | none => simp at hins
          | some sch0 =>
            dsimp only at hins
            cases hsch : st.schema_cache.schema_to_id sch0 with
            | none => rw [hsch] at hins; simp at hins
            | some cid =>
              rw [hsch] at hins
              simp only [Except.ok.injEq] at hins
              subst hins
              refine ⟨h1, ?_⟩
              intro s2 v2 i2 hmap
              dsimp only at hmap ⊢
              by_cases hkey : (s2, v2) = (subj, v)
              · rw [if_pos hkey] at hmap
                injection hmap with hi2
                rw [← hi2]
                exact h1 sch0 cid hsch
              · rw [if_neg hkey] at hmap
                exact h2 s2 v2 i2 hmap

/-- C8: after any sequence of cache operations on a fresh client, every
`(subject, version)` entry of the subject cache maps to a schema ID
resolvable in the schema cache; and `SubjectCache.insert` with a schema
ID absent from the schema cache and no schema fails with the
`ValueError`-kind (`MissingSchema`) error, leaving both caches
unchanged. -/
theorem subject_cache_layering (ops : List CacheOp)
    (st : RegistryState) (subject : String) (v : Int) (sid : Nat)
    (hmissing : st.schema_cache.id_to_schema sid = none) :
    subjectEntriesResolvable (run_ops ops) ∧
      SubjectCache.insert st subject (.int v) (some sid) none
        = .error .valueError ∧
      apply_op st (.subjectInsert subject (.int v) (some sid) none)
        = st := by
  refine ⟨?_, ?_, ?_⟩
  · have main : ∀ (l : List CacheOp) (st0 : RegistryState),
        schemaRangeClosed st0.schema_cache →
        subjectEntriesResolvable st0 →
        subjectEntriesResolvable (l.foldl apply_op st0) := by
      intro l
      induction l with
      | nil => intro st0 _ h2; exact h2
      | cons op rest ih =>
        intro st0 h1 h2
        rw [List.foldl_cons]
        obtain ⟨h1a, h2a⟩ := inv_apply_op st0 op h1 h2
        exact ih (apply_op st0 op) h1a h2a
    apply main ops RegistryState.empty
    · intro s i h
      simp [RegistryState.empty, SchemaCache.empty] at h
    · intro subj2 v2 i h
      simp [RegistryState.empty] at h
  · simp [SubjectCache.insert, hmissing]
  · simp [apply_op, SubjectCache.insert, hmissing]

/-- Witness for C8 on a mixed operation sequence and the missing
schema ID 99 against a fresh client. -/
theorem subject_cache_layering_witness :
    subjectEntriesResolvable (run_ops
        [.schemaInsert "A" 1,
          .subjectInsert "s" (.int 1) (some 1) none,
          .subjectInsert "s" (.str "latest") (some 1) none]) ∧
      SubjectCache.insert RegistryState.empty "s" (.int 1)
          (some 99) none = .error .valueError ∧
      apply_op RegistryState.empty
          (.subjectInsert "s" (.int 1) (some 99) none)
        = RegistryState.empty :=
  subject_cache_layering _ RegistryState.empty "s" 1 99 rfl

/-- C6: a `get_schema_by_subject` call with a string version such as
"latest" always performs exactly one remote fetch (the cache is never
consulted successfully); on a cache miss with a successful fetch whose
server-reported version is a concrete integer, the result is cached
under the server-reported subject and version so that a later call with
that concrete version is served from cache with no fetch; and when the
server-reported version is not an integer the composite is still
returned, with the state unchanged (the insert failure is caught). -/
theorem get_schema_by_subject_spec
    (fetch fetch2 :
      String → Version → Except RegistryError SubjectVersionResponse)
    (st : RegistryState) (subject : String) (version : Version)
    (r : SubjectVersionResponse) (v : Int) (s lat : String)
    (err : CacheError) :
    ((RegistryApi.get_schema_by_subject fetch st subject
        (.str lat)).2.2 = 1) ∧
    (SubjectCache.get st subject version = .error err →
      fetch subject version = .ok r →
      r.version = .int v →
      ∃ (st1 : RegistryState) (sch : String),
        RegistryApi.get_schema_by_subject fetch st subject version
          = (.ok { subject := r.subject, version := r.version,
                   id := r.id, schema := r.schema }, st1, 1) ∧
        RegistryApi.get_schema_by_subject fetch2 st1 r.subject (.int v)
          = (.ok { subject := r.subject, version := .int v,
                   id := r.id, schema := sch }, st1, 0)) ∧
    (SubjectCache.get st subject version = .error err →
      fetch subject version = .ok r →
      r.version = .str s →
      RegistryApi.get_schema_by_subject fetch st subject version
        = (.ok { subject := r.subject, version := r.version,
                 id := r.id, schema := r.schema }, st, 1)) := by
  refine ⟨?_, ?_, ?_⟩
  · dsimp only [RegistryApi.get_schema_by_subject, SubjectCache.get]
    cases hf : fetch subject (.str lat) with
    | error e => rfl
    | ok r0 =>
      dsimp only
      cases hins : SubjectCache.insert st r0.subject r0.version
          (some r0.id) (some r0.schema) with
      | ok st1 => rfl
      | error e => cases e <;> rfl
  · intro hmiss hfetch hver
    obtain ⟨rsub, rver, rid, rsch⟩ := r
    dsimp only at hver
    subst hver
    dsimp only [RegistryApi.get_schema_by_subject]
    rw [hmiss]
    dsimp only
    rw [hfetch]
    dsimp only [SubjectCache.insert]
    cases hid : st.schema_cache.id_to_schema rid with
    | none =>
      dsimp only
      refine ⟨_, rsch, rfl, ?_⟩
      dsimp only [RegistryApi.get_schema_by_subject, SubjectCache.get]
      simp [SchemaCache.insert]
    | some old =>
      dsimp only
      refine ⟨_, old, rfl, ?_⟩
      dsimp only [RegistryApi.get_schema_by_subject, SubjectCache.get]
      simp [hid]
  · intro hmiss hfetch hver
    obtain ⟨rsub, rver, rid, rsch⟩ := r
    dsimp only at hver
    subst hver
    dsimp only [RegistryApi.get_schema_by_subject]
    rw [hmiss]
    dsimp only
    rw [hfetch]
    rfl

/-- Witness for C6: a "latest" request against a fresh client with a
server reporting concrete version 3; the follow-up call with version 3
is answered from cache even against a failing transport. -/
theorem get_schema_by_subject_spec_witness :
    ∃ (st1 : RegistryState) (sch : String),
      RegistryApi.get_schema_by_subject
          (fun _ _ => .ok ⟨"s", .int 3, 5, "SCH"⟩)
          RegistryState.empty "s" (.str "latest")
        = (.ok { subject := "s", version := .int 3, id := 5,
                 schema := "SCH" }, st1, 1) ∧
      RegistryApi.get_schema_by_subject
          (fun _ _ => .error .runtimeError) st1 "s" (.int 3)
        = (.ok { subject := "s", version := .int 3, id := 5,
                 schema := sch }, st1, 0) :=
  (get_schema_by_subject_spec (fun _ _ => .ok ⟨"s", .int 3, 5, "SCH"⟩)
    (fun _ _ => .error .runtimeError) RegistryState.empty "s"
    (.str "latest") ⟨"s", .int 3, 5, "SCH"⟩ 3 "x" "latest"
    .valueError).2.1 rfl rfl rfl

/-- C9: when `schema_id` is supplied, `PolySerializer.serialize`
ignores any simultaneously supplied `schema` argument and encodes with
the schema fetched through `get_schema_by_id`; when only `schema` is
supplied it is registered through `register_schema` under the given
subject (or the derived name) to obtain the ID used in the prefix; when
neither is supplied the call fails with the `RuntimeError`
(`ConfigurationError`-kind) error, leaving the state unchanged. -/
theorem polyserializer_argument_precedence
    (encode : String → JValue → List Nat)
    (nameOf : String → Option String)
    (fetch : Nat → Except RegistryError String)
    (post : String → String → Except RegistryError Nat)
    (st : RegistryState) (data : JValue) (sid : Nat)
    (schema sch2 : Option String) (sch : String)
    (subject : Option String) :
    (PolySerializer.serialize encode nameOf fetch post st data schema
        (some sid) subject
      = PolySerializer.serialize encode nameOf fetch post st data sch2
        (some sid) subject) ∧
    (∀ (fetched : String) (st1 : RegistryState) (n : Nat),
      RegistryApi.get_schema_by_id fetch st sid = (.ok fetched, st1, n) →
      PolySerializer.serialize encode nameOf fetch post st data schema
          (some sid) subject
        = (.ok (make_message encode sid fetched data), st1)) ∧
    (∀ (rid : Nat) (st1 : RegistryState) (n : Nat),
      RegistryApi.register_schema nameOf post st sch subject
          = (.ok rid, st1, n) →
      PolySerializer.serialize encode nameOf fetch post st data
          (some sch) none subject
        = (.ok (make_message encode rid sch data), st1)) ∧
    (PolySerializer.serialize encode nameOf fetch post st data none
        none subject
      = (.error .runtimeError, st)) := by
  refine ⟨rfl, ?_, ?_, rfl⟩
  · intro fetched st1 n h
    dsimp only [PolySerializer.serialize]
    rw [h]
  · intro rid st1 n h
    dsimp only [PolySerializer.serialize]
    rw [h]

/-- Witness for C9: with `schema_id = 4` a supplied schema argument
"IGNORED" plays no role; the message uses the schema "S1" fetched by
ID. -/
theorem polyserializer_argument_precedence_witness :
    PolySerializer.serialize (fun _ _ => [1, 2]) (fun _ => none)
        (fun _ => .ok "S1") (fun _ _ => .ok 9) RegistryState.empty
        .null (some "IGNORED") (some 4) none
      = (.ok (make_message (fun _ _ => [1, 2]) 4 "S1" .null),
          (RegistryApi.get_schema_by_id (fun _ => .ok "S1")
            RegistryState.empty 4).2.1) :=
  (polyserializer_argument_precedence (fun _ _ => [1, 2])
    (fun _ => none) (fun _ => .ok "S1") (fun _ _ => .ok 9)
    RegistryState.empty .null 4 (some "IGNORED") none "x" none).2.1
    "S1" _ 1 rfl
